import Mathlib

/-!
Shallow embedding of the todo CRUD HTTP service implemented in
src/src/rest/rest/views.py (Django REST views backed by MongoDB).

The embedding models:
* Python str.strip (ASCII whitespace subset) as pyStrip;
* bson ObjectId validation/canonical string form;
* datetime and its isoformat rendering, plus an ISO-8601 parser used to
  state the round-trip property of created_at;
* MongoDB documents as association lists of field name / BSON value,
  the todos collection as a list of documents in natural (insertion) order;
* the four handlers (TodoListView.get/post, TodoDetailView.put/delete)
  with explicit state threading and explicit exception plumbing: the
  try/except blocks of the source appear as the handler-specific
  exception-to-response maps applied at each raise site; store failures
  (ConnectionFailure / OperationFailure / unexpected exceptions) are
  injected through a FailSpec argument naming which store call fails.
-/

/-- ASCII whitespace stripped by Python str.strip (space, tab, newline,
carriage return, vertical tab, form feed). -/
def isPySpace (c : Char) : Bool :=
  c = ' ' || c = '\t' || c = '\n' || c = '\r' || c = '\x0b' || c = '\x0c'

/-- Python str.strip on a list of characters: drop leading and trailing
whitespace. -/
def pyStripList (l : List Char) : List Char :=
  ((l.dropWhile isPySpace).reverse.dropWhile isPySpace).reverse

/-- Python str.strip. -/
def pyStrip (s : String) : String :=
  String.mk (pyStripList s.data)

/-- A bson ObjectId, represented by its canonical (lowercase) 24-character
hex string. -/
structure ObjectId where
  hex : String
deriving DecidableEq, Repr

def isHexChar (c : Char) : Bool :=
  c.isDigit || ('a' ≤ c && c ≤ 'f') || ('A' ≤ c && c ≤ 'F')

/-- The bson ObjectId constructor applied to a string: succeeds exactly on
24-character hex strings (raising InvalidId otherwise); the canonical
string form is lowercase. -/
def ObjectId.parse (s : String) : Option ObjectId :=
  if s.length = 24 && s.data.all isHexChar then
    some ⟨String.mk (s.data.map Char.toLower)⟩
  else none

/-- A UTC datetime (as produced by datetime.utcnow()). -/
structure DateTime where
  year : Nat
  month : Nat
  day : Nat
  hour : Nat
  minute : Nat
  second : Nat
  microsecond : Nat
deriving DecidableEq, Repr

/-- Component ranges of a Python datetime value. -/
def DateTime.valid (d : DateTime) : Bool :=
  decide (1 ≤ d.year) && decide (d.year ≤ 9999) &&
  decide (1 ≤ d.month) && decide (d.month ≤ 12) &&
  decide (1 ≤ d.day) && decide (d.day ≤ 31) &&
  decide (d.hour ≤ 23) && decide (d.minute ≤ 59) &&
  decide (d.second ≤ 59) && decide (d.microsecond ≤ 999999)

/-- Mixed-radix chronological key (the radixes strictly bound the valid
component ranges, so on valid datetimes the key order is chronological
order, matching BSON date comparison). -/
def DateTime.key (d : DateTime) : Nat :=
  (((((d.year * 16 + d.month) * 32 + d.day) * 32 + d.hour) * 64 +
      d.minute) * 64 + d.second) * 1048576 + d.microsecond

/-- Decimal digit characters of n, most significant first, left-padded
with zeros to width w (Python zero-padded rendering of a field). -/
def padChars (w n : Nat) : List Char :=
  List.replicate (w - (Nat.digits 10 n).length) '0' ++
    ((Nat.digits 10 n).map Nat.digitChar).reverse

/-- datetime.isoformat() as a character list:
YYYY-MM-DDTHH:MM:SS followed by .ffffff exactly when microsecond is
nonzero (Python omits the fractional part when it is zero). -/
def DateTime.isoChars (d : DateTime) : List Char :=
  padChars 4 d.year ++ '-' :: padChars 2 d.month ++ '-' :: padChars 2 d.day ++
    'T' :: padChars 2 d.hour ++ ':' :: padChars 2 d.minute ++
    ':' :: padChars 2 d.second ++
    (if d.microsecond = 0 then [] else '.' :: padChars 6 d.microsecond)

/-- datetime.isoformat(). -/
def DateTime.isoformat (d : DateTime) : String :=
  String.mk d.isoChars

def isDigitChar (c : Char) : Bool := '0' ≤ c && c ≤ '9'

def charToDigit (c : Char) : Nat := c.toNat - 48

/-- Parse a fixed-width decimal field, returning its value and the rest of
the input. -/
def parseFixed (w : Nat) (l : List Char) : Option (Nat × List Char) :=
  let pre := l.take w
  if pre.length = w && pre.all isDigitChar then
    some (Nat.ofDigits 10 ((pre.map charToDigit).reverse), l.drop w)
  else none

def expectChar (c : Char) : List Char → Option (List Char)
  | [] => none
  | x :: rest => if x = c then some rest else none

/-- ISO-8601 parser for the timestamp strings produced by isoformat:
date, T, time, optional fractional seconds. -/
def parseIsoChars (l : List Char) : Option DateTime := do
  let (y, l) ← parseFixed 4 l
  let l ← expectChar '-' l
  let (mo, l) ← parseFixed 2 l
  let l ← expectChar '-' l
  let (dy, l) ← parseFixed 2 l
  let l ← expectChar 'T' l
  let (h, l) ← parseFixed 2 l
  let l ← expectChar ':' l
  let (mi, l) ← parseFixed 2 l
  let l ← expectChar ':' l
  let (se, l) ← parseFixed 2 l
  match l with
  | [] => some ⟨y, mo, dy, h, mi, se, 0⟩
  | '.' :: rest =>
    match parseFixed 6 rest with
    | some (us, []) => some ⟨y, mo, dy, h, mi, se, us⟩
    | _ => none
  | _ => none

/-- ISO-8601 parser on strings. -/
def parseIso (s : String) : Option DateTime :=
  parseIsoChars s.data

/-! ### BSON values, documents and the todos collection -/

/-- The BSON value kinds that occur in this service. -/
inductive BVal where
  | oid (o : ObjectId)
  | str (s : String)
  | dt (d : DateTime)
  | bool (b : Bool)
deriving DecidableEq

/-- A MongoDB document: ordered fields (Python dicts and BSON documents
preserve field order). -/
abbrev Doc := List (String × BVal)

/-- The todos collection in natural (insertion) order, which is the order
an unsorted find() returns. -/
abbrev Store := List Doc

/-- Python str() of a BSON value (only the ObjectId case is exercised by
the formatter on well-formed documents). -/
def pyStr : BVal → String
  | .oid o => o.hex
  | .str s => s
  | .dt d => String.mk (d.isoChars.map fun c => if c = 'T' then ' ' else c)
  | .bool b => if b then "True" else "False"

/-- Dictionary / subdocument field read (first occurrence). -/
def fieldLookup (k : String) : Doc → Option BVal
  | [] => none
  | (k2, v) :: rest => if k2 = k then some v else fieldLookup k rest

/-- Dictionary field assignment: replace the value in place when the key
is present, append the field otherwise. -/
def pySetField : Doc → String → BVal → Doc
  | [], k, v => [(k, v)]
  | (k2, v2) :: rest, k, v =>
    if k2 = k then (k, v) :: rest else (k2, v2) :: pySetField rest k v

/-- Whether a document matches the Mongo filter on an _id value. -/
def docMatches (doc : Doc) (oid : ObjectId) : Bool :=
  decide (fieldLookup "_id" doc = some (BVal.oid oid))

/-- collection.find_one on an _id filter: first matching document. -/
def findOne : Store → ObjectId → Option Doc
  | [], _ => none
  | doc :: rest, oid => if docMatches doc oid then some doc else findOne rest oid

/-- collection.delete_one on an _id filter: remove the first matching
document; also reports the deleted_count. -/
def deleteOne : Store → ObjectId → Store × Nat
  | [], _ => ([], 0)
  | doc :: rest, oid =>
    if docMatches doc oid then (rest, 1)
    else
      let r := deleteOne rest oid
      (doc :: r.1, r.2)

/-- collection.update_one with a single-field $set: update the first
matching document. -/
def updateOne : Store → ObjectId → String → BVal → Store
  | [], _, _, _ => []
  | doc :: rest, oid, k, v =>
    if docMatches doc oid then pySetField doc k v :: rest
    else doc :: updateOne rest oid k v

/-! ### The sort used by find().sort(created_at, -1) -/

/-- BSON cross-type comparison rank of a created_at value (missing field
sorts with null, below every other kind; dates sort above the rest). -/
def bsonTypeRank : Option BVal → Nat
  | none => 0
  | some (.str _) => 1
  | some (.oid _) => 2
  | some (.bool _) => 3
  | some (.dt _) => 4

/-- Ascending BSON sort key of a document under the created_at sort. -/
def sortKey (doc : Doc) : Nat × Nat :=
  match fieldLookup "created_at" doc with
  | some (.dt d) => (4, d.key)
  | v => (bsonTypeRank v, 0)

def keyLe (a b : Nat × Nat) : Bool :=
  decide (a.1 < b.1) || (decide (a.1 = b.1) && decide (a.2 ≤ b.2))

/-- Descending created_at order between documents (newest first). -/
def createdAtGe (a b : Doc) : Bool := keyLe (sortKey b) (sortKey a)

/-! ### The formatter -/

/-- The field rewrites shared by _format_todo and the GET loop: stringify
_id in place, render created_at in ISO format when it is a datetime. -/
def formatFields (todo : Doc) : Doc :=
  let t1 := match fieldLookup "_id" todo with
    | some v => pySetField todo "_id" (BVal.str (pyStr v))
    | none => todo
  match fieldLookup "created_at" t1 with
  | some (.dt d) => pySetField t1 "created_at" (BVal.str d.isoformat)
  | _ => t1

/-- _format_todo (identical helper on TodoListView and TodoDetailView).
Python falsiness: both None and the empty dict take the early return. -/
def formatTodo : Option Doc → Option Doc
  | none => none
  | some [] => none
  | some (kv :: rest) => some (formatFields (kv :: rest))

/-! ### Requests, failures and responses -/

/-- JSON value bound to the description key of a request body. -/
inductive JVal where
  | jstr (s : String)
  | jnum (n : Int)
  | jbool (b : Bool)
  | jnull
deriving DecidableEq

/-- The failure kinds distinguished by the except clauses of the source:
pymongo ConnectionFailure, pymongo OperationFailure, and any other
exception.  The payload models the exception text (logged server-side,
never echoed to the caller). -/
inductive PyErr where
  | connectionFailure (msg : String)
  | operationFailure (msg : String)
  | otherError (msg : String)
deriving DecidableEq

/-- Failure injection for store calls: some (i, e) makes the i-th store
call of the handler raise e; none lets every call succeed. -/
abbrev FailSpec := Option (Nat × PyErr)

def mayFailP (fail : FailSpec) (i : Nat) : Option PyErr :=
  match fail with
  | some (k, e) => if k = i then some e else none
  | none => none

/-- request.data.get("description", "") followed by .strip(): an absent
key defaults to the empty string; a non-string value has no .strip and
raises AttributeError. -/
def stripDesc : Option JVal → Except PyErr String
  | none => .ok ""
  | some (.jstr s) => .ok (pyStrip s)
  | some (.jnum _) => .error (.otherError "AttributeError on strip")
  | some (.jbool _) => .error (.otherError "AttributeError on strip")
  | some .jnull => .error (.otherError "AttributeError on strip")

/-- The data payload of a response body: absent key, a single (possibly
null) document, or a list of documents. -/
inductive RespData where
  | absent
  | doc (d : Option Doc)
  | docs (l : List Doc)
deriving DecidableEq

/-- A JSON response: HTTP status plus the envelope fields the handlers
emit (success always; data/count/message/error when present). -/
structure Resp where
  status : Nat
  success : Bool
  data : RespData
  count : Option Nat
  message : Option String
  error : Option String
deriving DecidableEq

/-- The error envelope: success false plus a fixed human message. -/
def errResp (code : Nat) (msg : String) : Resp :=
  ⟨code, false, .absent, none, none, some msg⟩

def okList (todos : List Doc) : Resp :=
  ⟨200, true, .docs todos, some todos.length, none, none⟩

def okCreated (d : Option Doc) : Resp :=
  ⟨201, true, .doc d, none, some "Todo created successfully", none⟩

def okUpdated (d : Option Doc) : Resp :=
  ⟨200, true, .doc d, none, some "Todo updated successfully", none⟩

def okDeleted : Resp :=
  ⟨200, true, .absent, none, some "Todo deleted successfully", none⟩

/-- The except clauses of TodoListView.get: ConnectionFailure then a
catch-all (there is no OperationFailure clause, so operation failures are
caught by the catch-all). -/
def getExcResp : PyErr → Resp
  | .connectionFailure _ =>
    errResp 503 "Database connection failed. Please try again later."
  | _ => errResp 500 "An unexpected error occurred while retrieving todos."

/-- The except clauses of TodoListView.post. -/
def postExcResp : PyErr → Resp
  | .connectionFailure _ =>
    errResp 503 "Database connection failed. Please try again later."
  | .operationFailure _ =>
    errResp 500 "Database operation failed. Please try again."
  | .otherError _ =>
    errResp 500 "An unexpected error occurred while creating the todo."

/-- The except clauses of TodoDetailView.put. -/
def putExcResp : PyErr → Resp
  | .connectionFailure _ =>
    errResp 503 "Database connection failed. Please try again later."
  | .operationFailure _ =>
    errResp 500 "Database operation failed. Please try again."
  | .otherError _ =>
    errResp 500 "An unexpected error occurred while updating the todo."

/-- The except clauses of TodoDetailView.delete. -/
def deleteExcResp : PyErr → Resp
  | .connectionFailure _ =>
    errResp 503 "Database connection failed. Please try again later."
  | .operationFailure _ =>
    errResp 500 "Database operation failed. Please try again."
  | .otherError _ =>
    errResp 500 "An unexpected error occurred while deleting the todo."

/-! ### The four handlers -/

/-- The per-item body of the GET loop: reading todo["_id"] raises
KeyError when the field is absent; otherwise the item undergoes exactly
the formatFields rewrites. -/
def listFormatLoop : List Doc → Except PyErr (List Doc)
  | [] => .ok []
  | todo :: rest =>
    match fieldLookup "_id" todo with
    | none => .error (.otherError "KeyError on _id")
    | some _ =>
      match listFormatLoop rest with
      | .error e => .error e
      | .ok ts => .ok (formatFields todo :: ts)

/-- GET /todos (TodoListView.get).  Store call 0 is the find().sort()
cursor; iterating it raises the injected failure if any. -/
def TodoListView.get (fail : FailSpec) (s : Store) : Resp × Store :=
  match mayFailP fail 0 with
  | some e => (getExcResp e, s)
  | none =>
    match listFormatLoop (List.mergeSort s createdAtGe) with
    | .error e => (getExcResp e, s)
    | .ok todos => (okList todos, s)

/-- POST /todos (TodoListView.post).  now is datetime.utcnow(); newId is
the ObjectId the store assigns on insert; store call 0 is insert_one and
call 1 the re-read find_one. -/
def TodoListView.post (body : Option JVal) (now : DateTime) (newId : ObjectId)
    (fail : FailSpec) (s : Store) : Resp × Store :=
  match stripDesc body with
  | .error e => (postExcResp e, s)
  | .ok description =>
    if description = "" then
      (errResp 400 "Description is required and cannot be empty.", s)
    else if description.length > 500 then
      (errResp 400 "Description cannot exceed 500 characters.", s)
    else
      match mayFailP fail 0 with
      | some e => (postExcResp e, s)
      | none =>
        let todoDoc : Doc := [("description", .str description),
                              ("created_at", .dt now), ("completed", .bool false)]
        let s1 := s ++ [("_id", BVal.oid newId) :: todoDoc]
        match mayFailP fail 1 with
        | some e => (postExcResp e, s1)
        | none => (okCreated (formatTodo (findOne s1 newId)), s1)

/-- PUT /todos/id (TodoDetailView.put).  Store call 0 is the existence
find_one, call 1 update_one, call 2 the re-read find_one. -/
def TodoDetailView.put (todoId : String) (body : Option JVal)
    (fail : FailSpec) (s : Store) : Resp × Store :=
  match ObjectId.parse todoId with
  | none => (errResp 400 "Invalid todo ID format.", s)
  | some oid =>
    match stripDesc body with
    | .error e => (putExcResp e, s)
    | .ok description =>
      if description = "" then
        (errResp 400 "Description is required and cannot be empty.", s)
      else if description.length > 500 then
        (errResp 400 "Description cannot exceed 500 characters.", s)
      else
        match mayFailP fail 0 with
        | some e => (putExcResp e, s)
        | none =>
          match findOne s oid with
          | none => (errResp 404 "Todo not found.", s)
          | some _ =>
            match mayFailP fail 1 with
            | some e => (putExcResp e, s)
            | none =>
              let s1 := updateOne s oid "description" (.str description)
              match mayFailP fail 2 with
              | some e => (putExcResp e, s1)
              | none => (okUpdated (formatTodo (findOne s1 oid)), s1)

/-- DELETE /todos/id (TodoDetailView.delete).  Store call 0 is the
existence find_one, call 1 delete_one.  interfere injects the concurrent
delete the source guards against: the document disappears between the
existence check and delete_one, so delete_one reports deleted_count 0. -/
def TodoDetailView.delete (todoId : String) (fail : FailSpec)
    (interfere : Bool) (s : Store) : Resp × Store :=
  match ObjectId.parse todoId with
  | none => (errResp 400 "Invalid todo ID format.", s)
  | some oid =>
    match mayFailP fail 0 with
    | some e => (deleteExcResp e, s)
    | none =>
      match findOne s oid with
      | none => (errResp 404 "Todo not found.", s)
      | some _ =>
        let s1 := if interfere then (deleteOne s oid).1 else s
        match mayFailP fail 1 with
        | some e => (deleteExcResp e, s1)
        | none =>
          let r := deleteOne s1 oid
          if r.2 = 0 then (errResp 500 "Failed to delete todo.", r.1)
          else (okDeleted, r.1)

/-! ### Stored-collection invariant -/

/-- A stored description value: a string that is non-empty and not
whitespace-only, of length at most 500 after trimming. -/
def descOkB : BVal → Bool
  | .str s => !(pyStrip s == "") && decide ((pyStrip s).length ≤ 500)
  | _ => false

def docDescOk (doc : Doc) : Bool :=
  match fieldLookup "description" doc with
  | some v => descOkB v
  | none => true

def storeInv (s : Store) : Bool := s.all docDescOk

def hasId (doc : Doc) : Bool := (fieldLookup "_id" doc).isSome

/-! ### Concrete sample values used by the witnesses -/

def sampleOid : ObjectId := ⟨"507f1f77bcf86cd799439011"⟩

def sampleNow : DateTime := ⟨2024, 3, 5, 14, 30, 9, 123456⟩

def sampleDoc : Doc :=
  [("_id", BVal.oid sampleOid), ("description", BVal.str "buy milk"),
    ("created_at", BVal.dt sampleNow), ("completed", BVal.bool false)]

/-! ### Round-trip lemmas for the ISO format -/

theorem digitsLen_le {n w : Nat} (h : n < 10 ^ w) :
    (Nat.digits 10 n).length ≤ w := by
  rcases Nat.eq_zero_or_pos n with rfl | hn
  · simp
  · rw [Nat.digits_len 10 n (by norm_num) (Nat.pos_iff_ne_zero.mp hn)]
    have := Nat.log_lt_of_lt_pow (Nat.pos_iff_ne_zero.mp hn) h
    omega

theorem charToDigit_digitChar {d : Nat} (h : d < 10) :
    charToDigit (Nat.digitChar d) = d := by
  interval_cases d <;> rfl

theorem isDigitChar_digitChar {d : Nat} (h : d < 10) :
    isDigitChar (Nat.digitChar d) = true := by
  interval_cases d <;> rfl

theorem padChars_length {w n : Nat} (h : n < 10 ^ w) :
    (padChars w n).length = w := by
  have hle := digitsLen_le h
  simp [padChars]
  omega

theorem padChars_all_digits (w n : Nat) :
    (padChars w n).all isDigitChar = true := by
  simp only [padChars, List.all_append, List.all_reverse, Bool.and_eq_true,
    List.all_eq_true]
  constructor
  · intro c hc
    rw [List.eq_of_mem_replicate hc]
    rfl
  · intro c hc
    rcases List.mem_map.mp hc with ⟨d, hd, rfl⟩
    exact isDigitChar_digitChar (Nat.digits_lt_base (by norm_num) hd)

theorem ofDigits_replicate_zero (k : Nat) :
    Nat.ofDigits 10 (List.replicate k 0) = 0 := by
  induction k with
  | zero => rfl
  | succ k ih => simp [List.replicate_succ, Nat.ofDigits_cons, ih]

theorem padChars_value (w n : Nat) :
    Nat.ofDigits 10 (((padChars w n).map charToDigit).reverse) = n := by
  have hmap : ((Nat.digits 10 n).map Nat.digitChar).map charToDigit
      = Nat.digits 10 n := by
    rw [List.map_map]
    conv_rhs => rw [← List.map_id (Nat.digits 10 n)]
    apply List.map_congr_left  -- pointwise identity on the digit list
    intro d hd
    exact charToDigit_digitChar (Nat.digits_lt_base (by norm_num) hd)
  simp only [padChars, List.map_append, List.reverse_append,
    List.map_reverse, List.reverse_reverse, hmap]
  have hrepl : (List.replicate (w - (Nat.digits 10 n).length) '0').map
      charToDigit = List.replicate (w - (Nat.digits 10 n).length) 0 := by
    simp [List.map_replicate, charToDigit]
  rw [hrepl, List.reverse_replicate, Nat.ofDigits_append,
    ofDigits_replicate_zero, Nat.ofDigits_digits]
  ring

theorem parseFixed_pad {w n : Nat} {rest : List Char} (h : n < 10 ^ w) :
    parseFixed w (padChars w n ++ rest) = some (n, rest) := by
  have hlen := padChars_length h
  have htake : (padChars w n ++ rest).take w = padChars w n := by
    have h2 := List.take_left (padChars w n) rest
    rw [hlen] at h2
    exact h2
  have hdrop : (padChars w n ++ rest).drop w = rest := by
    have h2 := List.drop_left (padChars w n) rest
    rw [hlen] at h2
    exact h2
  simp [parseFixed, htake, hdrop, hlen, padChars_all_digits, padChars_value]

/-- Parsing inverts isoformat on every datetime with in-range components:
the rendered string determines the original instant exactly. -/
theorem parseIso_isoformat {d : DateTime} (h : d.valid = true) :
    parseIso d.isoformat = some d := by
  obtain ⟨y, mo, dy, hh, mi, se, us⟩ := d
  simp only [DateTime.valid, Bool.and_eq_true, decide_eq_true_eq] at h
  have hp4 : (10 : Nat) ^ 4 = 10000 := by norm_num
  have hp2 : (10 : Nat) ^ 2 = 100 := by norm_num
  have hp6 : (10 : Nat) ^ 6 = 1000000 := by norm_num
  have hy : y < 10 ^ 4 := by omega
  have hmo : mo < 10 ^ 2 := by omega
  have hdy : dy < 10 ^ 2 := by omega
  have hhh : hh < 10 ^ 2 := by omega
  have hmi : mi < 10 ^ 2 := by omega
  have hse : se < 10 ^ 2 := by omega
  have hus : us < 10 ^ 6 := by omega
  show parseIsoChars (DateTime.isoChars ⟨y, mo, dy, hh, mi, se, us⟩) = _
  unfold DateTime.isoChars
  by_cases hz : us = 0
  · subst hz
    have hse0 := @parseFixed_pad 2 se [] hse
    rw [List.append_nil] at hse0
    simp [parseIsoChars, parseFixed_pad hy, parseFixed_pad hmo,
      parseFixed_pad hdy, parseFixed_pad hhh, parseFixed_pad hmi,
      parseFixed_pad hse, hse0, expectChar, Option.bind]
  · have h6 := @parseFixed_pad 6 us [] hus
    rw [List.append_nil] at h6
    simp [parseIsoChars, parseFixed_pad hy, parseFixed_pad hmo,
      parseFixed_pad hdy, parseFixed_pad hhh, parseFixed_pad hmi,
      parseFixed_pad hse, h6, hz, expectChar, Option.bind]

/-! ### Python str.strip is idempotent -/

theorem dropWhile_rdropWhile_dropWhile (p : Char → Bool) (m : List Char) :
    List.dropWhile p (List.rdropWhile p (List.dropWhile p m)) =
      List.rdropWhile p (List.dropWhile p m) := by
  rw [List.dropWhile_eq_self_iff]
  intro hl
  have hpre := List.rdropWhile_prefix p (List.dropWhile p m)
  have hlen : 0 < (List.dropWhile p m).length :=
    lt_of_lt_of_le hl hpre.length_le
  have hg := List.IsPrefix.getElem hpre hl
  have hnot := List.dropWhile_get_zero_not p m hlen
  simp only [List.get_eq_getElem] at hnot ⊢
  rw [hg]
  exact hnot

theorem pyStripList_idem (l : List Char) :
    pyStripList (pyStripList l) = pyStripList l := by
  show List.rdropWhile _ (List.dropWhile _
      (List.rdropWhile _ (List.dropWhile _ l))) = _
  rw [dropWhile_rdropWhile_dropWhile, List.rdropWhile_idempotent]
  rfl

theorem pyStrip_idem (s : String) : pyStrip (pyStrip s) = pyStrip s := by
  show String.mk (pyStripList (pyStripList s.data)) = _
  rw [pyStripList_idem]
  rfl

/-! ### Small lemmas about the store primitives -/

theorem stripDesc_stripped {body : Option JVal} {d : String}
    (h : stripDesc body = .ok d) : pyStrip d = d := by
  cases body with
  | none =>
    cases h
    rfl
  | some v =>
    cases v with
    | jstr s =>
      cases h
      exact pyStrip_idem s
    | jnum n => cases h
    | jbool b => cases h
    | jnull => cases h

theorem fieldLookup_pySetField_self (doc : Doc) (k : String) (v : BVal) :
    fieldLookup k (pySetField doc k v) = some v := by
  induction doc with
  | nil => simp [pySetField, fieldLookup]
  | cons kv rest ih =>
    obtain ⟨k2, v2⟩ := kv
    by_cases h : k2 = k
    · simp [pySetField, h, fieldLookup]
    · simp [pySetField, h, fieldLookup, ih]

theorem fieldLookup_pySetField_other (doc : Doc) {k2 k : String} (v : BVal)
    (h : k2 ≠ k) : fieldLookup k2 (pySetField doc k v) = fieldLookup k2 doc := by
  induction doc with
  | nil => simp [pySetField, fieldLookup, Ne.symm h]
  | cons kv rest ih =>
    obtain ⟨k3, v3⟩ := kv
    by_cases h3 : k3 = k
    · subst h3
      simp [pySetField, fieldLookup, Ne.symm h]
    · simp [pySetField, h3, fieldLookup, ih]

theorem pySetField_map_fst {doc : Doc} {k : String} {v0 : BVal} (v : BVal)
    (h : fieldLookup k doc = some v0) :
    (pySetField doc k v).map Prod.fst = doc.map Prod.fst := by
  induction doc with
  | nil => cases h
  | cons kv rest ih =>
    obtain ⟨k2, v2⟩ := kv
    by_cases h2 : k2 = k
    · simp [pySetField, h2]
    · rw [fieldLookup, if_neg h2] at h
      simp [pySetField, h2, ih h]

theorem findOne_append_fresh {s : Store} {newId : ObjectId} (nd : Doc)
    (hfresh : ∀ doc ∈ s, docMatches doc newId = false) :
    findOne (s ++ [nd]) newId =
      if docMatches nd newId then some nd else none := by
  induction s with
  | nil => simp [findOne]
  | cons doc rest ih =>
    have h0 := hfresh doc (by simp)
    simp only [List.cons_append, findOne, h0, Bool.false_eq_true, if_false]
    exact ih fun d hd => hfresh d (by simp [hd])

theorem findOne_none_of_countP_zero {s : Store} {oid : ObjectId}
    (h : s.countP (fun d => docMatches d oid) = 0) : findOne s oid = none := by
  induction s with
  | nil => rfl
  | cons doc rest ih =>
    rw [List.countP_cons] at h
    have h1 : docMatches doc oid = false := by
      by_cases hd : docMatches doc oid
      · simp [hd] at h
      · simpa using hd
    rw [findOne, h1]
    simp only [Bool.false_eq_true, if_false]
    exact ih (by omega)

theorem deleteOne_count_of_find {s : Store} {oid : ObjectId} {doc : Doc}
    (h : findOne s oid = some doc) : (deleteOne s oid).2 = 1 := by
  induction s with
  | nil => cases h
  | cons d rest ih =>
    rw [findOne] at h
    by_cases hd : docMatches d oid
    · simp [deleteOne, hd]
    · rw [if_neg (by simp [hd])] at h
      simp [deleteOne, hd, ih h]

theorem deleteOne_of_findOne_none {s : Store} {oid : ObjectId}
    (h : findOne s oid = none) : deleteOne s oid = (s, 0) := by
  induction s with
  | nil => rfl
  | cons d rest ih =>
    rw [findOne] at h
    by_cases hd : docMatches d oid
    · rw [if_pos (by simp [hd])] at h
      cases h
    · rw [if_neg (by simp [hd])] at h
      simp [deleteOne, hd, ih h]

theorem findOne_deleteOne_none {s : Store} {oid : ObjectId}
    (huniq : s.countP (fun d => docMatches d oid) ≤ 1) :
    findOne (deleteOne s oid).1 oid = none := by
  induction s with
  | nil => rfl
  | cons d rest ih =>
    rw [List.countP_cons] at huniq
    by_cases hd : docMatches d oid
    · have hz : rest.countP (fun d => docMatches d oid) = 0 := by
        simp only [hd, if_pos] at huniq
        omega
      simp [deleteOne, hd, findOne_none_of_countP_zero hz]
    · simp only [deleteOne, hd, Bool.false_eq_true, if_false]
      rw [findOne, if_neg (by simp [hd])]
      exact ih (by omega)

/-! ### Claim theorems -/

/-- C1: create(description) first trims the input, then returns 400 when
the trimmed result is empty, then 400 when the trimmed length exceeds
500, and otherwise (in particular at trimmed length exactly 500) creates
the todo with status 201; the checks apply in exactly that order. -/
theorem create_validation_order (d : String) (now : DateTime)
    (newId : ObjectId) (s : Store) :
    (TodoListView.post (some (.jstr d)) now newId none s).1.status =
      if pyStrip d = "" then 400
      else if 500 < (pyStrip d).length then 400
      else 201 := by
  unfold TodoListView.post stripDesc
  by_cases h1 : pyStrip d = ""
  · simp [h1, errResp]
  · by_cases h2 : 500 < (pyStrip d).length
    · simp [h1, h2, errResp]
    · simp [h1, h2, mayFailP, okCreated, errResp]

/-- C3: update on an unparseable id string answers 400 with the id error
message, with the store untouched, whatever the body and whatever a store
call would have done (no store operation is reached); update with a
parseable id whose document is absent answers 404 for every valid
description; the checks run in the order id-parse, then description
emptiness, then description length (the description checks also precede
every store access). -/
theorem update_bad_id_and_not_found :
    (∀ todoId, ObjectId.parse todoId = none →
      ∀ body fail s, TodoDetailView.put todoId body fail s =
        (errResp 400 "Invalid todo ID format.", s)) ∧
    (∀ todoId oid, ObjectId.parse todoId = some oid →
      ∀ d s, pyStrip d ≠ "" → (pyStrip d).length ≤ 500 →
        findOne s oid = none →
        TodoDetailView.put todoId (some (.jstr d)) none s =
          (errResp 404 "Todo not found.", s)) ∧
    (∀ todoId oid, ObjectId.parse todoId = some oid →
      ∀ d fail s, pyStrip d = "" →
        TodoDetailView.put todoId (some (.jstr d)) fail s =
          (errResp 400 "Description is required and cannot be empty.", s)) ∧
    (∀ todoId oid, ObjectId.parse todoId = some oid →
      ∀ d fail s, pyStrip d ≠ "" → 500 < (pyStrip d).length →
        TodoDetailView.put todoId (some (.jstr d)) fail s =
          (errResp 400 "Description cannot exceed 500 characters.", s)) := by
  refine ⟨?_, ?_, ?_, ?_⟩
  · intro todoId hp body fail s
    unfold TodoDetailView.put
    rw [hp]
  · intro todoId oid hp d s hne hlen hfind
    unfold TodoDetailView.put stripDesc
    rw [hp]
    simp [hne, Nat.not_lt.mpr hlen, mayFailP, hfind]
  · intro todoId oid hp d fail s he
    unfold TodoDetailView.put stripDesc
    rw [hp]
    simp [he]
  · intro todoId oid hp d fail s hne hlen
    unfold TodoDetailView.put stripDesc
    rw [hp]
    simp [hne, hlen]

/-- C3 witness: concrete instances of the bad-id and not-found parts. -/
theorem update_bad_id_and_not_found_witness :
    (ObjectId.parse "xyz" = none ∧
      TodoDetailView.put "xyz" (some (.jstr "hello")) none [] =
        (errResp 400 "Invalid todo ID format.", [])) ∧
    (ObjectId.parse "507f1f77bcf86cd799439011" =
        some ⟨"507f1f77bcf86cd799439011"⟩ ∧
      pyStrip "hello" ≠ "" ∧ (pyStrip "hello").length ≤ 500 ∧
      findOne [] ⟨"507f1f77bcf86cd799439011"⟩ = none ∧
      TodoDetailView.put "507f1f77bcf86cd799439011" (some (.jstr "hello"))
          none [] = (errResp 404 "Todo not found.", [])) :=
  ⟨⟨by decide, update_bad_id_and_not_found.1 "xyz" (by decide)
      (some (.jstr "hello")) none []⟩,
    by decide, by decide, by decide, by decide,
    update_bad_id_and_not_found.2.1 "507f1f77bcf86cd799439011"
      ⟨"507f1f77bcf86cd799439011"⟩ (by decide) "hello" [] (by decide)
      (by decide) (by decide)⟩

/-- C10 (implicit edge case): an absent description value defaults to the
empty string and yields 400 on both create and update, but a present
non-string value (null, a number, a boolean) makes .strip raise, so the
generic except clause answers 500 - not 400 - on both; in every such case
the store is untouched. -/
theorem missing_and_nonstring_description :
    (∀ now newId fail s, TodoListView.post none now newId fail s =
      (errResp 400 "Description is required and cannot be empty.", s)) ∧
    (∀ v, (v = JVal.jnull ∨ (∃ n, v = .jnum n) ∨ (∃ b, v = .jbool b)) →
      ∀ now newId fail s, TodoListView.post (some v) now newId fail s =
        (errResp 500 "An unexpected error occurred while creating the todo.",
          s)) ∧
    (∀ todoId oid, ObjectId.parse todoId = some oid →
      (∀ fail s, TodoDetailView.put todoId none fail s =
        (errResp 400 "Description is required and cannot be empty.", s)) ∧
      ∀ v, (v = JVal.jnull ∨ (∃ n, v = .jnum n) ∨ (∃ b, v = .jbool b)) →
        ∀ fail s, TodoDetailView.put todoId (some v) fail s =
          (errResp 500 "An unexpected error occurred while updating the todo.",
            s)) := by
  refine ⟨?_, ?_, ?_⟩
  · intro now newId fail s
    rfl
  · rintro v (rfl | ⟨n, rfl⟩ | ⟨b, rfl⟩) now newId fail s <;> rfl
  · intro todoId oid hp
    constructor
    · intro fail s
      unfold TodoDetailView.put
      rw [hp]
      rfl
    · rintro v (rfl | ⟨n, rfl⟩ | ⟨b, rfl⟩) fail s <;>
        · unfold TodoDetailView.put
          rw [hp]
          rfl

/-- C10 witness: concrete instances covering the absent and null cases. -/
theorem missing_and_nonstring_description_witness :
    (TodoListView.post none ⟨2024, 1, 1, 0, 0, 0, 0⟩ ⟨"a"⟩ none [] =
      (errResp 400 "Description is required and cannot be empty.", [])) ∧
    ((JVal.jnull = JVal.jnull ∨ (∃ n, JVal.jnull = .jnum n) ∨
        (∃ b, JVal.jnull = .jbool b)) ∧
      TodoListView.post (some .jnull) ⟨2024, 1, 1, 0, 0, 0, 0⟩ ⟨"a"⟩ none [] =
        (errResp 500 "An unexpected error occurred while creating the todo.",
          [])) :=
  ⟨missing_and_nonstring_description.1 ⟨2024, 1, 1, 0, 0, 0, 0⟩ ⟨"a"⟩ none [],
    Or.inl rfl,
    missing_and_nonstring_description.2.1 JVal.jnull (Or.inl rfl)
      ⟨2024, 1, 1, 0, 0, 0, 0⟩ ⟨"a"⟩ none []⟩

/-- C2: with a parseable id and a (unique, as Mongo's _id index
guarantees) matching document, delete succeeds with 200 and a second
delete of the same id answers 404; but when the document passes the
existence check and a concurrent delete then makes delete_one report
zero affected documents, the handler answers 500 - never 404. -/
theorem delete_second_and_race (todoId : String) (oid : ObjectId)
    (s : Store) (doc : Doc)
    (hparse : ObjectId.parse todoId = some oid)
    (hfind : findOne s oid = some doc)
    (huniq : s.countP (fun d => docMatches d oid) ≤ 1) :
    ((TodoDetailView.delete todoId none false s).1.status = 200 ∧
      (TodoDetailView.delete todoId none false
          (TodoDetailView.delete todoId none false s).2).1 =
        errResp 404 "Todo not found.") ∧
    (TodoDetailView.delete todoId none true s).1 =
      errResp 500 "Failed to delete todo." := by
  have hcount := deleteOne_count_of_find hfind
  have hafter := @findOne_deleteOne_none s oid huniq
  have hst : (TodoDetailView.delete todoId none false s).2 =
      (deleteOne s oid).1 := by
    unfold TodoDetailView.delete
    rw [hparse]
    simp only [mayFailP, hfind]
    by_cases hz : (deleteOne s oid).2 = 0 <;> simp [hz]
  refine ⟨⟨?_, ?_⟩, ?_⟩
  · unfold TodoDetailView.delete
    rw [hparse]
    simp [mayFailP, hfind, hcount, okDeleted]
  · rw [hst]
    unfold TodoDetailView.delete
    rw [hparse]
    simp [mayFailP, hafter]
  · unfold TodoDetailView.delete
    rw [hparse]
    simp only [mayFailP, hfind, if_true]
    rw [deleteOne_of_findOne_none hafter]
    simp

/-- C2 witness: a concrete one-document store. -/
theorem delete_second_and_race_witness :
    (ObjectId.parse "507f1f77bcf86cd799439011" = some sampleOid ∧
      findOne [sampleDoc] sampleOid = some sampleDoc ∧
      List.countP (fun d => docMatches d sampleOid) [sampleDoc] ≤ 1) ∧
    (((TodoDetailView.delete "507f1f77bcf86cd799439011" none false
          [sampleDoc]).1.status = 200 ∧
        (TodoDetailView.delete "507f1f77bcf86cd799439011" none false
            (TodoDetailView.delete "507f1f77bcf86cd799439011" none false
              [sampleDoc]).2).1 = errResp 404 "Todo not found.") ∧
      (TodoDetailView.delete "507f1f77bcf86cd799439011" none true
          [sampleDoc]).1 = errResp 500 "Failed to delete todo.") :=
  ⟨⟨by decide, by decide, by decide⟩,
    delete_second_and_race "507f1f77bcf86cd799439011" sampleOid [sampleDoc]
      sampleDoc (by decide) (by decide) (by decide)⟩

/-! ### Invariant preservation lemmas -/

theorem storeInv_deleteOne {s : Store} (oid : ObjectId)
    (h : storeInv s = true) : storeInv (deleteOne s oid).1 = true := by
  induction s with
  | nil => rfl
  | cons d rest ih =>
    rw [storeInv, List.all_cons, Bool.and_eq_true] at h
    by_cases hd : docMatches d oid
    · simpa [deleteOne, hd, storeInv] using h.2
    · have hrest := ih h.2
      simp only [deleteOne, hd, Bool.false_eq_true, if_false]
      rw [storeInv, List.all_cons, Bool.and_eq_true]
      exact ⟨h.1, hrest⟩

theorem storeInv_updateOne {s : Store} (oid : ObjectId) {v : BVal}
    (hv : descOkB v = true) (h : storeInv s = true) :
    storeInv (updateOne s oid "description" v) = true := by
  induction s with
  | nil => rfl
  | cons d rest ih =>
    rw [storeInv, List.all_cons, Bool.and_eq_true] at h
    by_cases hd : docMatches d oid
    · rw [updateOne, if_pos hd, storeInv, List.all_cons, Bool.and_eq_true]
      refine ⟨?_, h.2⟩
      rw [docDescOk, fieldLookup_pySetField_self]
      exact hv
    · rw [updateOne, if_neg hd, storeInv, List.all_cons, Bool.and_eq_true]
      exact ⟨h.1, ih h.2⟩

theorem storeInv_append {s : Store} {doc : Doc} (h : storeInv s = true)
    (hd : docDescOk doc = true) : storeInv (s ++ [doc]) = true := by
  rw [storeInv, List.all_append, Bool.and_eq_true]
  exact ⟨h, by simp [hd]⟩

/-- C4: the stored-collection invariant - every stored description field
is a non-empty, non-whitespace-only string of trimmed length at most
500 - is preserved by each of the four operations, from any state
satisfying it, for every input and every injected store failure. -/
theorem stored_description_invariant :
    (∀ fail s, storeInv s = true →
      storeInv (TodoListView.get fail s).2 = true) ∧
    (∀ body now newId fail s, storeInv s = true →
      storeInv (TodoListView.post body now newId fail s).2 = true) ∧
    (∀ todoId body fail s, storeInv s = true →
      storeInv (TodoDetailView.put todoId body fail s).2 = true) ∧
    (∀ todoId fail interfere s, storeInv s = true →
      storeInv (TodoDetailView.delete todoId fail interfere s).2 = true) := by
  refine ⟨?_, ?_, ?_, ?_⟩
  · intro fail s h
    unfold TodoListView.get
    rcases h0 : mayFailP fail 0 with _ | e
    · rcases h1 : listFormatLoop (List.mergeSort s createdAtGe) with e | ts <;>
        simp [h0, h1, h]
    · simp [h0, h]
  · intro body now newId fail s h
    unfold TodoListView.post
    rcases hsd : stripDesc body with e | d2
    · simp [hsd, h]
    · have hstr := stripDesc_stripped hsd
      by_cases h1 : d2 = ""
      · simp [hsd, h1, h]
      · by_cases h2 : 500 < d2.length
        · simp [hsd, h1, h2, h]
        · have hdoc : docDescOk (("_id", BVal.oid newId) ::
              [("description", BVal.str d2), ("created_at", BVal.dt now),
                ("completed", BVal.bool false)]) = true := by
            simp [docDescOk, fieldLookup, descOkB, hstr, h1, h2]
            omega
          have hins := storeInv_append h hdoc
          rcases h0 : mayFailP fail 0 with _ | e
          · rcases h1' : mayFailP fail 1 with _ | e <;>
              simp [hsd, h1, h2, h0, h1', hins]
          · simp [hsd, h1, h2, h0, h]
  · intro todoId body fail s h
    unfold TodoDetailView.put
    rcases hp : ObjectId.parse todoId with _ | oid
    · simpa using h
    · rcases hsd : stripDesc body with e | d2
      · simp [hsd, h]
      · have hstr := stripDesc_stripped hsd
        by_cases h1 : d2 = ""
        · simp [hsd, h1, h]
        · by_cases h2 : 500 < d2.length
          · simp [hsd, h1, h2, h]
          · have hupd : storeInv (updateOne s oid "description"
                (BVal.str d2)) = true := by
              refine storeInv_updateOne oid ?_ h
              simp [descOkB, hstr, h1, h2]
              omega
            rcases h0 : mayFailP fail 0 with _ | e
            · rcases hf : findOne s oid with _ | doc
              · simp [hsd, h1, h2, h0, hf, h]
              · rcases h1' : mayFailP fail 1 with _ | e
                · rcases h2' : mayFailP fail 2 with _ | e <;>
                    simp [hsd, h1, h2, h0, hf, h1', h2', hupd]
                · simp [hsd, h1, h2, h0, hf, h1', h]
            · simp [hsd, h1, h2, h0, h]
  · intro todoId fail interfere s h
    unfold TodoDetailView.delete
    rcases hp : ObjectId.parse todoId with _ | oid
    · simpa using h
    · have hs1 : storeInv (if interfere then (deleteOne s oid).1 else s)
          = true := by
        by_cases hi : interfere
        · simpa [hi] using storeInv_deleteOne oid h
        · simpa [hi] using h
      have hdel := storeInv_deleteOne oid hs1
      rcases h0 : mayFailP fail 0 with _ | e
      · rcases hf : findOne s oid with _ | doc
        · simp [h0, hf, h]
        · rcases h1 : mayFailP fail 1 with _ | e
          · by_cases hz : (deleteOne
                (if interfere then (deleteOne s oid).1 else s) oid).2 = 0 <;>
              simp [h0, hf, h1, hz, hdel, hs1]
          · simp [h0, hf, h1, hs1]
      · simp [h0, h]

/-- C4 witness: the empty store satisfies the invariant and a concrete
create preserves it. -/
theorem stored_description_invariant_witness :
    storeInv [] = true ∧
    storeInv (TodoListView.post (some (.jstr "buy milk")) sampleNow sampleOid
      none []).2 = true :=
  ⟨by decide,
    stored_description_invariant.2.1 (some (.jstr "buy milk")) sampleNow
      sampleOid none [] (by decide)⟩

/-- C5: for every valid description, a successful create answers with the
created representation: description is the trimmed input, _id is the
string form of the assigned id, completed is false, and created_at is the
ISO-8601 rendering of the creation instant, which parses back to that
exact instant (no sub-second truncation occurs in this embedding of the
store). -/
theorem create_round_trip (d : String) (now : DateTime) (newId : ObjectId)
    (s : Store)
    (hne : pyStrip d ≠ "") (hlen : (pyStrip d).length ≤ 500)
    (hfresh : ∀ doc ∈ s, docMatches doc newId = false)
    (hnow : now.valid = true) :
    ∃ fd : Doc,
      (TodoListView.post (some (.jstr d)) now newId none s).1 =
        okCreated (some fd) ∧
      fieldLookup "description" fd = some (.str (pyStrip d)) ∧
      fieldLookup "_id" fd = some (.str newId.hex) ∧
      fieldLookup "completed" fd = some (.bool false) ∧
      fieldLookup "created_at" fd = some (.str now.isoformat) ∧
      parseIso now.isoformat = some now := by
  have hmatch : docMatches (("_id", BVal.oid newId) ::
      [("description", BVal.str (pyStrip d)), ("created_at", BVal.dt now),
        ("completed", BVal.bool false)]) newId = true := by
    simp [docMatches, fieldLookup]
  have hfind := @findOne_append_fresh s newId
    (("_id", BVal.oid newId) ::
      [("description", BVal.str (pyStrip d)), ("created_at", BVal.dt now),
        ("completed", BVal.bool false)]) hfresh
  rw [hmatch, if_pos rfl] at hfind
  refine ⟨formatFields (("_id", BVal.oid newId) ::
      [("description", BVal.str (pyStrip d)), ("created_at", BVal.dt now),
        ("completed", BVal.bool false)]), ?_, ?_, ?_, ?_, ?_,
    parseIso_isoformat hnow⟩
  · simp only [TodoListView.post, stripDesc, mayFailP]
    rw [if_neg hne, if_neg (by omega : ¬(pyStrip d).length > 500)]
    rw [hfind]
    rfl
  · simp [formatFields, fieldLookup, pySetField]
  · simp [formatFields, fieldLookup, pySetField, pyStr]
  · simp [formatFields, fieldLookup, pySetField]
  · simp [formatFields, fieldLookup, pySetField]

/-- C5 witness: a concrete create on the empty store. -/
theorem create_round_trip_witness :
    (pyStrip " buy milk " ≠ "" ∧ (pyStrip " buy milk ").length ≤ 500 ∧
      (∀ doc ∈ ([] : Store), docMatches doc sampleOid = false) ∧
      sampleNow.valid = true) ∧
    (∃ fd : Doc,
      (TodoListView.post (some (.jstr " buy milk ")) sampleNow sampleOid
          none []).1 = okCreated (some fd) ∧
      fieldLookup "description" fd = some (.str (pyStrip " buy milk ")) ∧
      fieldLookup "_id" fd = some (.str sampleOid.hex) ∧
      fieldLookup "completed" fd = some (.bool false) ∧
      fieldLookup "created_at" fd = some (.str sampleNow.isoformat) ∧
      parseIso sampleNow.isoformat = some sampleNow) :=
  ⟨⟨by decide, by decide, by decide, by decide⟩,
    create_round_trip " buy milk " sampleNow sampleOid [] (by decide)
      (by decide) (by decide) (by decide)⟩

/-! ### List ordering lemmas -/

theorem keyLe_trans {a b c : Nat × Nat} (hab : keyLe a b = true)
    (hbc : keyLe b c = true) : keyLe a c = true := by
  simp only [keyLe, Bool.or_eq_true, Bool.and_eq_true, decide_eq_true_eq]
    at hab hbc ⊢
  omega

theorem keyLe_total (a b : Nat × Nat) : (keyLe a b || keyLe b a) = true := by
  simp only [keyLe, Bool.or_eq_true, Bool.and_eq_true, decide_eq_true_eq]
  omega

theorem listFormatLoop_ok : ∀ {l : List Doc},
    (∀ doc ∈ l, hasId doc = true) →
    listFormatLoop l = .ok (l.map formatFields) := by
  intro l
  induction l with
  | nil => intro _; rfl
  | cons todo rest ih =>
    intro h
    have htodo := h todo (by simp)
    rw [hasId] at htodo
    rcases hlk : fieldLookup "_id" todo with _ | v
    · rw [hlk] at htodo
      cases htodo
    · rw [listFormatLoop, hlk, ih fun doc hd => h doc (by simp [hd])]
      rfl

/-- C6: list() answers 200 with a success envelope whose data holds every
stored document - a permutation of the store, ordered descending by
created_at - each passed through the formatter, and whose count equals
the length of that sequence.  (Stated for stores whose documents all
carry an _id, which every document written by this service does; a
document without one would make the GET loop raise KeyError.) -/
theorem list_sorted_envelope (s : Store) (h : ∀ doc ∈ s, hasId doc = true) :
    ∃ l : Store, l.Perm s ∧
      l.Pairwise (fun a b => createdAtGe a b = true) ∧
      TodoListView.get none s =
        ({status := 200, success := true, data := .docs (l.map formatFields),
          count := some (l.map formatFields).length, message := none,
          error := none}, s) := by
  refine ⟨List.mergeSort s createdAtGe, List.mergeSort_perm s _, ?_, ?_⟩
  · exact @List.sorted_mergeSort Doc createdAtGe
      (fun a b c hab hbc => keyLe_trans hbc hab)
      (fun a b => keyLe_total (sortKey b) (sortKey a)) s
  · unfold TodoListView.get
    rw [listFormatLoop_ok fun doc hd =>
      h doc (List.mem_mergeSort.mp hd)]
    rfl

/-- C6 witness: a concrete two-document store. -/
theorem list_sorted_envelope_witness :
    (∀ doc ∈ [sampleDoc, [("_id", BVal.oid ⟨"a"⟩)]], hasId doc = true) ∧
    (∃ l : Store, l.Perm [sampleDoc, [("_id", BVal.oid ⟨"a"⟩)]] ∧
      l.Pairwise (fun a b => createdAtGe a b = true) ∧
      TodoListView.get none [sampleDoc, [("_id", BVal.oid ⟨"a"⟩)]] =
        ({status := 200, success := true, data := .docs (l.map formatFields),
          count := some (l.map formatFields).length, message := none,
          error := none}, [sampleDoc, [("_id", BVal.oid ⟨"a"⟩)]])) :=
  ⟨by decide,
    list_sorted_envelope [sampleDoc, [("_id", BVal.oid ⟨"a"⟩)]] (by decide)⟩

/-! ### Failure propagation helpers (one per handler) -/

theorem get_fail_cases (i : Nat) (e : PyErr) (s : Store) :
    (TodoListView.get (some (i, e)) s).1 = (TodoListView.get none s).1 ∨
    (TodoListView.get (some (i, e)) s).1 = getExcResp e := by
  unfold TodoListView.get
  by_cases hi : i = 0
  · subst hi
    right
    rfl
  · left
    have h0 : mayFailP (some (i, e)) 0 = none := by simp [mayFailP, hi]
    rw [h0]
    rfl

theorem post_fail_cases (body : Option JVal) (now : DateTime)
    (newId : ObjectId) (i : Nat) (e : PyErr) (s : Store) :
    (TodoListView.post body now newId (some (i, e)) s).1 =
      (TodoListView.post body now newId none s).1 ∨
    (TodoListView.post body now newId (some (i, e)) s).1 = postExcResp e := by
  unfold TodoListView.post
  rcases hsd : stripDesc body with e2 | d2
  · left
    rfl
  · by_cases h1 : d2 = ""
    · left
      simp [h1]
    · by_cases h2 : d2.length > 500
      · left
        simp [h1, h2]
      · by_cases hi0 : i = 0
        · subst hi0
          right
          simp [h1, h2, mayFailP]
        · by_cases hi1 : i = 1
          · subst hi1
            right
            simp [h1, h2, mayFailP]
          · left
            simp [h1, h2, mayFailP, hi0, hi1]

theorem put_fail_cases (todoId : String) (body : Option JVal) (i : Nat)
    (e : PyErr) (s : Store) :
    (TodoDetailView.put todoId body (some (i, e)) s).1 =
      (TodoDetailView.put todoId body none s).1 ∨
    (TodoDetailView.put todoId body (some (i, e)) s).1 = putExcResp e := by
  unfold TodoDetailView.put
  rcases hp : ObjectId.parse todoId with _ | oid
  · left
    rfl
  · rcases hsd : stripDesc body with e2 | d2
    · left
      rfl
    · by_cases h1 : d2 = ""
      · left
        simp [h1]
      · by_cases h2 : d2.length > 500
        · left
          simp [h1, h2]
        · by_cases hi0 : i = 0
          · subst hi0
            right
            simp [h1, h2, mayFailP]
          · rcases hf : findOne s oid with _ | doc
            · left
              simp [h1, h2, mayFailP, hi0, hf]
            · by_cases hi1 : i = 1
              · subst hi1
                right
                simp [h1, h2, mayFailP, hf]
              · by_cases hi2 : i = 2
                · subst hi2
                  right
                  simp [h1, h2, mayFailP, hf, hi1]
                · left
                  simp [h1, h2, mayFailP, hi0, hi1, hi2, hf]

theorem delete_fail_cases (todoId : String) (i : Nat) (e : PyErr)
    (interfere : Bool) (s : Store) :
    (TodoDetailView.delete todoId (some (i, e)) interfere s).1 =
      (TodoDetailView.delete todoId none interfere s).1 ∨
    (TodoDetailView.delete todoId (some (i, e)) interfere s).1 =
      deleteExcResp e := by
  unfold TodoDetailView.delete
  rcases hp : ObjectId.parse todoId with _ | oid
  · left
    rfl
  · by_cases hi0 : i = 0
    · subst hi0
      right
      simp [mayFailP]
    · rcases hf : findOne s oid with _ | doc
      · left
        simp [mayFailP, hi0, hf]
      · by_cases hi1 : i = 1
        · subst hi1
          right
          simp [mayFailP, hf, hi0]
        · left
          simp [mayFailP, hi0, hi1, hf]

/-- C7: for every operation and every injected store failure, either the
failure site is never reached (the response is the no-failure response)
or the failure is caught locally and mapped to the error envelope with
the fixed status and fixed generic message of that handler:
connection failure to 503, operation failure to 500, any other exception
to 500.  The message never depends on the exception content (the m
quantifier), and no exception escapes (the handlers are total functions
into responses). -/
theorem failure_envelope_mapping :
    ((∀ s i m,
      (TodoListView.get (some (i, PyErr.connectionFailure m)) s).1 =
        (TodoListView.get none s).1 ∨
      (TodoListView.get (some (i, PyErr.connectionFailure m)) s).1 =
        errResp 503 "Database connection failed. Please try again later.") ∧
    (∀ s i m,
      (TodoListView.get (some (i, PyErr.operationFailure m)) s).1 =
        (TodoListView.get none s).1 ∨
      (TodoListView.get (some (i, PyErr.operationFailure m)) s).1 =
        errResp 500 "An unexpected error occurred while retrieving todos.") ∧
    (∀ s i m,
      (TodoListView.get (some (i, PyErr.otherError m)) s).1 =
        (TodoListView.get none s).1 ∨
      (TodoListView.get (some (i, PyErr.otherError m)) s).1 =
        errResp 500 "An unexpected error occurred while retrieving todos.")) ∧
    ((∀ body now newId s i m,
      (TodoListView.post body now newId (some (i, PyErr.connectionFailure m))
          s).1 = (TodoListView.post body now newId none s).1 ∨
      (TodoListView.post body now newId (some (i, PyErr.connectionFailure m))
          s).1 =
        errResp 503 "Database connection failed. Please try again later.") ∧
    (∀ body now newId s i m,
      (TodoListView.post body now newId (some (i, PyErr.operationFailure m))
          s).1 = (TodoListView.post body now newId none s).1 ∨
      (TodoListView.post body now newId (some (i, PyErr.operationFailure m))
          s).1 = errResp 500 "Database operation failed. Please try again.") ∧
    (∀ body now newId s i m,
      (TodoListView.post body now newId (some (i, PyErr.otherError m))
          s).1 = (TodoListView.post body now newId none s).1 ∨
      (TodoListView.post body now newId (some (i, PyErr.otherError m))
          s).1 =
        errResp 500 "An unexpected error occurred while creating the todo.")) ∧
    ((∀ todoId body s i m,
      (TodoDetailView.put todoId body (some (i, PyErr.connectionFailure m))
          s).1 = (TodoDetailView.put todoId body none s).1 ∨
      (TodoDetailView.put todoId body (some (i, PyErr.connectionFailure m))
          s).1 =
        errResp 503 "Database connection failed. Please try again later.") ∧
    (∀ todoId body s i m,
      (TodoDetailView.put todoId body (some (i, PyErr.operationFailure m))
          s).1 = (TodoDetailView.put todoId body none s).1 ∨
      (TodoDetailView.put todoId body (some (i, PyErr.operationFailure m))
          s).1 = errResp 500 "Database operation failed. Please try again.") ∧
    (∀ todoId body s i m,
      (TodoDetailView.put todoId body (some (i, PyErr.otherError m))
          s).1 = (TodoDetailView.put todoId body none s).1 ∨
      (TodoDetailView.put todoId body (some (i, PyErr.otherError m))
          s).1 =
        errResp 500 "An unexpected error occurred while updating the todo.")) ∧
    ((∀ todoId interfere s i m,
      (TodoDetailView.delete todoId (some (i, PyErr.connectionFailure m))
          interfere s).1 =
        (TodoDetailView.delete todoId none interfere s).1 ∨
      (TodoDetailView.delete todoId (some (i, PyErr.connectionFailure m))
          interfere s).1 =
        errResp 503 "Database connection failed. Please try again later.") ∧
    (∀ todoId interfere s i m,
      (TodoDetailView.delete todoId (some (i, PyErr.operationFailure m))
          interfere s).1 =
        (TodoDetailView.delete todoId none interfere s).1 ∨
      (TodoDetailView.delete todoId (some (i, PyErr.operationFailure m))
          interfere s).1 =
        errResp 500 "Database operation failed. Please try again.") ∧
    (∀ todoId interfere s i m,
      (TodoDetailView.delete todoId (some (i, PyErr.otherError m))
          interfere s).1 =
        (TodoDetailView.delete todoId none interfere s).1 ∨
      (TodoDetailView.delete todoId (some (i, PyErr.otherError m))
          interfere s).1 =
        errResp 500 "An unexpected error occurred while deleting the todo.")) := by
  refine ⟨⟨?_, ?_, ?_⟩, ⟨?_, ?_, ?_⟩, ⟨?_, ?_, ?_⟩, ⟨?_, ?_, ?_⟩⟩
  · intro s i m
    rcases get_fail_cases i (PyErr.connectionFailure m) s with h | h
    · exact Or.inl h
    · exact Or.inr h
  · intro s i m
    rcases get_fail_cases i (PyErr.operationFailure m) s with h | h
    · exact Or.inl h
    · exact Or.inr h
  · intro s i m
    rcases get_fail_cases i (PyErr.otherError m) s with h | h
    · exact Or.inl h
    · exact Or.inr h
  · intro body now newId s i m
    rcases post_fail_cases body now newId i (PyErr.connectionFailure m) s
      with h | h
    · exact Or.inl h
    · exact Or.inr h
  · intro body now newId s i m
    rcases post_fail_cases body now newId i (PyErr.operationFailure m) s
      with h | h
    · exact Or.inl h
    · exact Or.inr h
  · intro body now newId s i m
    rcases post_fail_cases body now newId i (PyErr.otherError m) s
      with h | h
    · exact Or.inl h
    · exact Or.inr h
  · intro todoId body s i m
    rcases put_fail_cases todoId body i (PyErr.connectionFailure m) s
      with h | h
    · exact Or.inl h
    · exact Or.inr h
  · intro todoId body s i m
    rcases put_fail_cases todoId body i (PyErr.operationFailure m) s
      with h | h
    · exact Or.inl h
    · exact Or.inr h
  · intro todoId body s i m
    rcases put_fail_cases todoId body i (PyErr.otherError m) s with h | h
    · exact Or.inl h
    · exact Or.inr h
  · intro todoId interfere s i m
    rcases delete_fail_cases todoId i (PyErr.connectionFailure m) interfere s
      with h | h
    · exact Or.inl h
    · exact Or.inr h
  · intro todoId interfere s i m
    rcases delete_fail_cases todoId i (PyErr.operationFailure m) interfere s
      with h | h
    · exact Or.inl h
    · exact Or.inr h
  · intro todoId interfere s i m
    rcases delete_fail_cases todoId i (PyErr.otherError m) interfere s
      with h | h
    · exact Or.inl h
    · exact Or.inr h

/-- Decomposition of the store at the first match of an _id filter, and
the effect of update_one on it. -/
theorem findOne_decomp {s : Store} {oid : ObjectId} {doc : Doc}
    (h : findOne s oid = some doc) :
    ∃ pre post, s = pre ++ doc :: post ∧
      (∀ d ∈ pre, docMatches d oid = false) ∧
      ∀ k v, updateOne s oid k v = pre ++ pySetField doc k v :: post := by
  induction s with
  | nil => cases h
  | cons d rest ih =>
    rw [findOne] at h
    by_cases hd : docMatches d oid
    · rw [if_pos hd] at h
      obtain rfl : d = doc := by injection h
      refine ⟨[], rest, by simp, by simp, ?_⟩
      intro k v
      rw [updateOne, if_pos hd]
      rfl
    · rw [if_neg hd] at h
      obtain ⟨pre, post, hs, hpre, hupd⟩ := ih h
      refine ⟨d :: pre, post, by simp [hs], ?_, ?_⟩
      · intro d2 hd2
        rcases List.mem_cons.mp hd2 with rfl | hd2
        · simpa using hd
        · exact hpre d2 hd2
      · intro k v
        rw [updateOne, if_neg hd, hupd]
        rfl

/-- C8: a successful update rewrites only the description field of the
first document matching the id: every document before it (none of which
matches) and after it is untouched, and every field of the targeted
document other than description - in particular _id, created_at and
completed - reads the same afterwards. -/
theorem update_frame (todoId : String) (oid : ObjectId) (d : String)
    (s : Store) (doc : Doc)
    (hparse : ObjectId.parse todoId = some oid)
    (hfind : findOne s oid = some doc)
    (hne : pyStrip d ≠ "") (hlen : (pyStrip d).length ≤ 500) :
    (TodoDetailView.put todoId (some (.jstr d)) none s).1.status = 200 ∧
    ∃ pre post, s = pre ++ doc :: post ∧
      (∀ d2 ∈ pre, docMatches d2 oid = false) ∧
      (TodoDetailView.put todoId (some (.jstr d)) none s).2 =
        pre ++ pySetField doc "description" (.str (pyStrip d)) :: post ∧
      ∀ k, k ≠ "description" →
        fieldLookup k (pySetField doc "description" (.str (pyStrip d))) =
          fieldLookup k doc := by
  have hred : TodoDetailView.put todoId (some (.jstr d)) none s =
      (okUpdated (formatTodo (findOne (updateOne s oid "description"
          (.str (pyStrip d))) oid)),
        updateOne s oid "description" (.str (pyStrip d))) := by
    simp only [TodoDetailView.put, stripDesc, hparse, mayFailP, hfind]
    rw [if_neg hne, if_neg (by omega : ¬(pyStrip d).length > 500)]
  obtain ⟨pre, post, hs, hpre, hupd⟩ := findOne_decomp hfind
  refine ⟨by rw [hred]; rfl, pre, post, hs, hpre, ?_, ?_⟩
  · rw [hred, hupd]
  · intro k hk
    exact fieldLookup_pySetField_other doc _ hk

/-- C8 witness: a concrete two-document store where the second matches. -/
theorem update_frame_witness :
    (ObjectId.parse "507f1f77bcf86cd799439011" = some sampleOid ∧
      findOne [[("_id", BVal.oid ⟨"b"⟩)], sampleDoc] sampleOid =
        some sampleDoc ∧
      pyStrip " oat milk " ≠ "" ∧ (pyStrip " oat milk ").length ≤ 500) ∧
    ((TodoDetailView.put "507f1f77bcf86cd799439011"
        (some (.jstr " oat milk ")) none
        [[("_id", BVal.oid ⟨"b"⟩)], sampleDoc]).1.status = 200 ∧
      ∃ pre post,
        [[("_id", BVal.oid ⟨"b"⟩)], sampleDoc] = pre ++ sampleDoc :: post ∧
        (∀ d2 ∈ pre, docMatches d2 sampleOid = false) ∧
        (TodoDetailView.put "507f1f77bcf86cd799439011"
            (some (.jstr " oat milk ")) none
            [[("_id", BVal.oid ⟨"b"⟩)], sampleDoc]).2 =
          pre ++ pySetField sampleDoc "description"
            (.str (pyStrip " oat milk ")) :: post ∧
        ∀ k, k ≠ "description" →
          fieldLookup k (pySetField sampleDoc "description"
              (.str (pyStrip " oat milk "))) =
            fieldLookup k sampleDoc) :=
  ⟨⟨by decide, by decide, by decide, by decide⟩,
    update_frame "507f1f77bcf86cd799439011" sampleOid " oat milk "
      [[("_id", BVal.oid ⟨"b"⟩)], sampleDoc] sampleDoc (by decide) (by decide)
      (by decide) (by decide)⟩

/-- C9 counterexample: the source guard (if not todo) is satisfied by the
empty dict as well as by None, so the formatter sends the present but
empty document to an absent result rather than returning a mapping, which
refutes the claim that every present document yields a mapping. -/
theorem formatter_empty_doc_counterexample :
    formatTodo (some []) = none ∧
    ∀ fd : Doc, formatTodo (some []) ≠ some fd :=
  ⟨rfl, fun _ h => Option.noConfusion h⟩

/-- Field-level description of the formatFields rewrites, used by the
amended C9. -/
theorem formatFields_spec (doc : Doc) :
    (formatFields doc).map Prod.fst = doc.map Prod.fst ∧
    (∀ v, fieldLookup "_id" doc = some v →
      fieldLookup "_id" (formatFields doc) = some (.str (pyStr v))) ∧
    (∀ dt0, fieldLookup "created_at" doc = some (.dt dt0) →
      fieldLookup "created_at" (formatFields doc) =
        some (.str dt0.isoformat)) ∧
    (∀ k, k ≠ "_id" → k ≠ "created_at" →
      fieldLookup k (formatFields doc) = fieldLookup k doc) := by
  have hca_ne : ("created_at" : String) ≠ "_id" := by decide
  rcases hid : fieldLookup "_id" doc with _ | v
  · have ht1 : formatFields doc = (match fieldLookup "created_at" doc with
        | some (.dt d0) => pySetField doc "created_at" (.str d0.isoformat)
        | _ => doc) := by
      simp only [formatFields, hid]
    rcases hca : fieldLookup "created_at" doc with _ | w
    · rw [hca] at ht1
      exact ⟨by rw [ht1], fun v hv => Option.noConfusion hv,
        fun dt0 hdt => Option.noConfusion hdt, fun k _ _ => by rw [ht1]⟩
    · rcases w with o | s2 | d0 | b
      case dt =>
        rw [hca] at ht1
        refine ⟨?_, fun v hv => Option.noConfusion hv, ?_, ?_⟩
        · rw [ht1]
          exact pySetField_map_fst _ hca
        · intro dt0 hdt
          injection hdt with hw
          injection hw with hd0
          rw [ht1, ← hd0, fieldLookup_pySetField_self]
        · intro k hk1 hk2
          rw [ht1, fieldLookup_pySetField_other doc _ hk2]
      all_goals
        rw [hca] at ht1
        refine ⟨by rw [ht1], fun v hv => Option.noConfusion hv, ?_,
          fun k _ _ => by rw [ht1]⟩
        intro dt0 hdt
        simp at hdt
  · have ht1 : formatFields doc = (match fieldLookup "created_at"
        (pySetField doc "_id" (.str (pyStr v))) with
        | some (.dt d0) => pySetField (pySetField doc "_id" (.str (pyStr v)))
            "created_at" (.str d0.isoformat)
        | _ => pySetField doc "_id" (.str (pyStr v))) := by
      simp only [formatFields, hid]
    have hcat1 : fieldLookup "created_at"
        (pySetField doc "_id" (.str (pyStr v))) =
          fieldLookup "created_at" doc :=
      fieldLookup_pySetField_other doc _ hca_ne
    have hkeys1 : (pySetField doc "_id" (.str (pyStr v))).map Prod.fst =
        doc.map Prod.fst := pySetField_map_fst _ hid
    rcases hca : fieldLookup "created_at" doc with _ | w
    · rw [hcat1, hca] at ht1
      refine ⟨by rw [ht1, hkeys1], ?_,
        fun dt0 hdt => Option.noConfusion hdt, ?_⟩
      · intro v2 hv
        injection hv with hv2
        rw [ht1, ← hv2, fieldLookup_pySetField_self]
      · intro k hk1 hk2
        rw [ht1, fieldLookup_pySetField_other doc _ hk1]
    · rcases w with o | s2 | d0 | b
      case dt =>
        rw [hcat1, hca] at ht1
        have hcaset : fieldLookup "created_at"
            (pySetField doc "_id" (.str (pyStr v))) = some (BVal.dt d0) := by
          rw [hcat1]
          exact hca
        refine ⟨?_, ?_, ?_, ?_⟩
        · rw [ht1, pySetField_map_fst _ hcaset, hkeys1]
        · intro v2 hv
          injection hv with hv2
          rw [ht1, ← hv2,
            fieldLookup_pySetField_other _ _ (Ne.symm hca_ne),
            fieldLookup_pySetField_self]
        · intro dt0 hdt
          injection hdt with hw
          injection hw with hd0
          rw [ht1, ← hd0, fieldLookup_pySetField_self]
        · intro k hk1 hk2
          rw [ht1, fieldLookup_pySetField_other _ _ hk2,
            fieldLookup_pySetField_other doc _ hk1]
      all_goals
        rw [hcat1, hca] at ht1
        refine ⟨by rw [ht1, hkeys1], ?_, ?_, ?_⟩
        · intro v2 hv
          injection hv with hv2
          rw [ht1, ← hv2, fieldLookup_pySetField_self]
        · intro dt0 hdt
          simp at hdt
        · intro k hk1 hk2
          rw [ht1, fieldLookup_pySetField_other doc _ hk1]

/-- C9 amended: the formatter is a pure total function; an absent
document - or an empty one, by Python falsiness - yields an absent
result; every present non-empty document yields a new mapping with the
same keys in the same order, in which _id (if present) is replaced by its
str() form (the canonical hex string for an ObjectId), created_at (if
present and a datetime) by its ISO-8601 rendering, and every other field
reads unchanged. -/
theorem formatter_fields :
    formatTodo none = none ∧
    ∀ doc : Doc, doc ≠ [] →
      ∃ fd : Doc, formatTodo (some doc) = some fd ∧
        fd.map Prod.fst = doc.map Prod.fst ∧
        (∀ v, fieldLookup "_id" doc = some v →
          fieldLookup "_id" fd = some (.str (pyStr v))) ∧
        (∀ dt0, fieldLookup "created_at" doc = some (.dt dt0) →
          fieldLookup "created_at" fd = some (.str dt0.isoformat)) ∧
        (∀ k, k ≠ "_id" → k ≠ "created_at" →
          fieldLookup k fd = fieldLookup k doc) := by
  refine ⟨rfl, ?_⟩
  intro doc hne
  obtain ⟨kv, rest, rfl⟩ : ∃ kv rest, doc = kv :: rest := by
    cases doc with
    | nil => exact absurd rfl hne
    | cons kv rest => exact ⟨kv, rest, rfl⟩
  obtain ⟨h1, h2, h3, h4⟩ := formatFields_spec (kv :: rest)
  exact ⟨formatFields (kv :: rest), rfl, h1, h2, h3, h4⟩

/-- C9 witness: a concrete document exercising both rewrites. -/
theorem formatter_fields_witness :
    (sampleDoc ≠ []) ∧
    (∃ fd : Doc, formatTodo (some sampleDoc) = some fd ∧
      fd.map Prod.fst = sampleDoc.map Prod.fst ∧
      (∀ v, fieldLookup "_id" sampleDoc = some v →
        fieldLookup "_id" fd = some (.str (pyStr v))) ∧
      (∀ dt0, fieldLookup "created_at" sampleDoc = some (.dt dt0) →
        fieldLookup "created_at" fd = some (.str dt0.isoformat)) ∧
      (∀ k, k ≠ "_id" → k ≠ "created_at" →
        fieldLookup k fd = fieldLookup k sampleDoc)) :=
  ⟨by decide, formatter_fields.2 sampleDoc (by decide)⟩
